import Mathlib

/-!
A verification development for the cgroup-migration and readiness-notification
core of the systemd-docker supervisor.

The Go sources are shallowly embedded: pure string manipulation is translated
directly, and every I/O interaction (reading the per-pid cgroup membership
file, reading a cgroup procs list, liveness probes of `/proc/<pid>`, writes to
procs-list files, docker API calls and datagram-socket sends) is represented by
an explicit environment of oracles, with the sequence of performed effects
returned as a trace.  Machine integers are modelled as `Int`/`Nat` (pids are
far below any overflow boundary, and no arithmetic is performed on them).
-/

namespace SystemdDocker

/-! ### Models of the Go standard string operations used by the sources -/

/-- Model of Go `strings.Split(s, sep)` for a one-character separator,
working on the character list: splitting the empty string yields one empty
field, and `n` separators yield `n + 1` fields. -/
def listSplit (sep : Char) : List Char → List (List Char)
  | [] => [[]]
  | c :: rest =>
    let r := listSplit sep rest
    if c = sep then [] :: r
    else
      match r with
      | h :: t => (c :: h) :: t
      | [] => [[c]]

/-- Go `strings.Split(s, string sep)` on Lean strings. -/
def goSplit (sep : Char) (s : String) : List String :=
  (listSplit sep s.data).map String.mk

/-- Go `strings.HasPrefix`. -/
def goStartsWith (s pre : String) : Bool :=
  pre.data.isPrefixOf s.data

/-- Go `strings.HasSuffix`. -/
def goEndsWith (s suf : String) : Bool :=
  suf.data.reverse.isPrefixOf s.data.reverse

/-- Go `strings.TrimPrefix(s, pre)`: drops `pre` when it heads `s`,
otherwise returns `s` unchanged. -/
def goTrimLeading (s pre : String) : String :=
  if goStartsWith s pre then String.mk (s.data.drop pre.data.length) else s

/-- Go `strings.Join(parts, sep)`. -/
def goJoin (sep : String) : List String → String
  | [] => ""
  | [x] => x
  | x :: y :: rest => x ++ sep ++ goJoin sep (y :: rest)

/-- Value of a decimal digit list, most significant first. -/
def digitsToNat (l : List Char) : Nat :=
  l.foldl (fun n c => n * 10 + (c.toNat - 48)) 0

/-- Model of Go `strconv.Atoi`: an optional sign followed by at least one
decimal digit; anything else is a parse error (`none`).  The 64-bit range
check of the Go implementation is elided — pids are tiny. -/
def atoi? (s : String) : Option Int :=
  match s.data with
  | [] => none
  | '+' :: rest =>
    if rest ≠ [] ∧ rest.all Char.isDigit then some (Int.ofNat (digitsToNat rest)) else none
  | '-' :: rest =>
    if rest ≠ [] ∧ rest.all Char.isDigit then some (-(Int.ofNat (digitsToNat rest))) else none
  | l =>
    if l.all Char.isDigit then some (Int.ofNat (digitsToNat l)) else none

/-! ### Cgroup membership maps (`lib/cgroups.go`)

Go's `map[string]string` is modelled as an insertion-ordered association list
with overwriting insert; only insert and lookup are used by the sources. -/

/-- The `map[string]string` carrying controller name -> cgroup path. -/
def Cgmap := List (String × String)

instance : DecidableEq Cgmap := by
  unfold Cgmap
  infer_instance

/-- Map insert (`ret[part] = line[2]` in `getCgroupsForPid`): overwrite the
first binding of the key when present, append otherwise. -/
def mapInsert : Cgmap → String → String → Cgmap
  | [], key, val => [(key, val)]
  | (k, v) :: rest, key, val =>
    if k = key then (k, val) :: rest else (k, v) :: mapInsert rest key val

/-- Map lookup (`currentCgroups[nsName]` with its `ok` flag). -/
def mapLookup : Cgmap → String → Option String
  | [], _ => none
  | (k, v) :: rest, key => if k = key then some v else mapLookup rest key

/-- Go `strings.SplitN(s, ":", 3)`: at most three fields, the third keeping
any further colons. -/
def splitN3Colon (s : String) : List String :=
  match goSplit ':' s with
  | p0 :: p1 :: p2 :: rest => [p0, p1, goJoin ":" (p2 :: rest)]
  | ps => ps

/-- One iteration of the scanner loop of `getCgroupsForPid`
(`src/lib/cgroups.go`): split the line in at most three colon fields, skip it
unless there are exactly three and the controller field is nonempty, then map
every comma-separated controller component to the record's path. -/
def parseCgroupLine (m : Cgmap) (text : String) : Cgmap :=
  match splitN3Colon text with
  | [_, ctrls, p] =>
    if ctrls = "" then m
    else (goSplit ',' ctrls).foldl (fun acc part => mapInsert acc part p) m
  | _ => m

/-- `getCgroupsForPid` (`src/lib/cgroups.go`), applied to the lines of the
already-opened `/proc/<pid>/cgroup` file (the open itself is I/O; a failed
open never reaches this parsing loop). -/
def getCgroupsForPid (lines : List String) : Cgmap :=
  lines.foldl parseCgroupLine []

/-! Lemmas about the membership parser. -/

theorem mapInsert_lookup_self (m : Cgmap) (k v : String) :
    mapLookup (mapInsert m k v) k = some v := by
  induction m with
  | nil => simp [mapInsert, mapLookup]
  | cons hd tl ih =>
    obtain ⟨hk, hv⟩ := hd
    by_cases h : hk = k <;> simp [mapInsert, mapLookup, h, ih]

theorem mapInsert_lookup_other (m : Cgmap) (k v key : String) (hne : key ≠ k) :
    mapLookup (mapInsert m k v) key = mapLookup m key := by
  have hne2 : ¬ k = key := fun h => hne h.symm
  induction m with
  | nil => simp [mapInsert, mapLookup, hne2]
  | cons hd tl ih =>
    obtain ⟨hk, hv⟩ := hd
    by_cases h : hk = k
    · subst h
      simp [mapInsert, mapLookup, hne2]
    · simp [mapInsert, mapLookup, h, ih]

theorem foldl_mapInsert_lookup (p : String) :
    ∀ (parts : List String) (m : Cgmap) (name : String),
      (mapLookup m name = some p ∨ name ∈ parts) →
      mapLookup (parts.foldl (fun acc part => mapInsert acc part p) m) name = some p := by
  intro parts
  induction parts with
  | nil =>
    intro m name h
    simpa using h.resolve_right (by simp)
  | cons hd tl ih =>
    intro m name h
    simp only [List.foldl_cons]
    apply ih
    by_cases hname : name = hd
    · subst hname
      exact Or.inl (mapInsert_lookup_self m name p)
    · rcases h with h | h
      · exact Or.inl ((mapInsert_lookup_other m hd p name hname).trans h)
      · rcases List.mem_cons.mp h with h | h
        · exact absurd h hname
        · exact Or.inr h

/-- C9: for every membership record that splits into a colon-delimited triple,
`getCgroupsForPid` skips the record when its controller-list field is empty,
and otherwise maps each comma-separated controller name of the record to the
record's path; in particular the line `"4:cpu,cpuacct:/docker/abc"` maps both
`cpu` and `cpuacct` to `/docker/abc`. -/
theorem getCgroupsForPid_record_parsing (m : Cgmap) (text hid ctrls p : String)
    (hsplit : splitN3Colon text = [hid, ctrls, p]) :
    (ctrls = "" → parseCgroupLine m text = m)
    ∧ (ctrls ≠ "" → ∀ name ∈ goSplit ',' ctrls,
        mapLookup (parseCgroupLine m text) name = some p)
    ∧ mapLookup (getCgroupsForPid ["4:cpu,cpuacct:/docker/abc"]) "cpu" = some "/docker/abc"
    ∧ mapLookup (getCgroupsForPid ["4:cpu,cpuacct:/docker/abc"]) "cpuacct"
        = some "/docker/abc" := by
  refine ⟨fun h => ?_, fun h name hmem => ?_, by decide, by decide⟩
  · simp [parseCgroupLine, hsplit, h]
  · simp only [parseCgroupLine, hsplit, if_neg h]
    exact foldl_mapInsert_lookup p (goSplit ',' ctrls) m name (Or.inr hmem)

/-- Witness for `getCgroupsForPid_record_parsing` at the concrete record of
the claim. -/
theorem getCgroupsForPid_record_parsing_witness :
    mapLookup (parseCgroupLine [] "4:cpu,cpuacct:/docker/abc") "cpu" = some "/docker/abc" :=
  (getCgroupsForPid_record_parsing [] "4:cpu,cpuacct:/docker/abc" "4" "cpu,cpuacct"
    "/docker/abc" (by decide)).2.1 (by decide) "cpu" (by decide)

/-! ### The cgroup migration engine (`MoveCgroups`, `src/lib/cgroups.go`)

The run context fields consulted by `MoveCgroups` are `Cgroups` (Go `nil`
modelled as `none`), `AllCgroups` and `UnifiedHiearchy`.  The I/O surface —
the two membership reads, the procs-list reads, the `/proc/<pid>` liveness
stats and the procs-list writes — is an oracle environment, and each attempted
`writePid` call is recorded as a trace event. -/

/-- The slice of the run context that `MoveCgroups` reads. -/
structure MoveContext where
  cgroups : Option (List String)
  allCgroups : Bool
  unifiedHiearchy : Bool
deriving DecidableEq

/-- One attempted `writePid(pid, path)` call, with the controller it was
issued for and whether the write succeeded. -/
structure WriteEv where
  ns : String
  pidStr : String
  path : String
  ok : Bool
deriving DecidableEq

/-- Oracle environment for one `MoveCgroups` run: the two parsed membership
maps (results of the successful `getCgroupsForPid` calls for the supervisor
and for the container), the procs-list reads (`getCgroupPids`, already
line-trimmed; `none` is a failed open), the `HasPidDied` answers at the
pre-write probe and at the re-check after a failed write, and the success of
each `writePid` call. -/
structure CgEnv where
  currentCgroups : Cgmap
  containerCgroups : Cgmap
  cgroupPids : String → String → Option (List String)
  hasPidDied1 : Int → Bool
  hasPidDied2 : Int → Bool
  writeOk : String → String → Bool

/-- Model of Go `path.Join` as used by `constructCgroupPath`: empty components
vanish and the rest are joined with a slash.  The lexical `Clean`
normalisation that Go additionally applies is elided: the resulting string is
only ever used as the key of the write oracle, never re-parsed. -/
def goPathJoin (parts : List String) : String :=
  goJoin "/" (parts.filter (fun s => s ≠ ""))

/-- `constructCgroupPath` (`src/lib/cgroups.go`): an empty controller name
becomes `unified` only in unified-hierarchy mode, a `name=` prefix is
stripped, and the procs-list file name is appended. -/
def constructCgroupPath (c : MoveContext) (cgroupName cgroupPath : String) : String :=
  let nm := if cgroupName = "" ∧ c.unifiedHiearchy then "unified" else cgroupName
  goPathJoin ["/sys/fs/cgroup", goTrimLeading nm "name=", cgroupPath, "cgroup.procs"]

/-- The target-controller-set computation at the head of `MoveCgroups`:
`if c.AllCgroups || c.Cgroups == nil || len(c.Cgroups) == 0` use every key of
the container's membership map, else use the explicit selection. -/
def targetNs (c : MoveContext) (containerCgroups : Cgmap) : List String :=
  if c.allCgroups || c.cgroups == none || (c.cgroups.getD []).length == 0 then
    containerCgroups.map Prod.fst
  else
    c.cgroups.getD []

/-- The inner pid loop of `MoveCgroups` for one controller: non-numeric pids
and pids already dead at the first probe are skipped; a successful write sets
`moved`; a failed write is swallowed when the pid is found dead on the
re-check and aborts the whole migration otherwise. -/
def movePids (env : CgEnv) (c : MoveContext) (nsName currentPath : String) :
    List String → Bool → List WriteEv × Except Unit Bool
  | [], moved => ([], Except.ok moved)
  | pid :: rest, moved =>
    match atoi? pid with
    | none => movePids env c nsName currentPath rest moved
    | some pidInt =>
      if env.hasPidDied1 pidInt then
        movePids env c nsName currentPath rest moved
      else
        if env.writeOk pid (constructCgroupPath c nsName currentPath) then
          (⟨nsName, pid, constructCgroupPath c nsName currentPath, true⟩ ::
              (movePids env c nsName currentPath rest true).1,
           (movePids env c nsName currentPath rest true).2)
        else if env.hasPidDied2 pidInt then
          (⟨nsName, pid, constructCgroupPath c nsName currentPath, false⟩ ::
              (movePids env c nsName currentPath rest moved).1,
           (movePids env c nsName currentPath rest moved).2)
        else
          ([⟨nsName, pid, constructCgroupPath c nsName currentPath, false⟩], Except.error ())

/-- The outer controller loop of `MoveCgroups`: a controller absent from
either membership map is skipped, as is one whose container path equals the
supervisor's path or is the root `/`; a failed procs-list read aborts. -/
def moveNs (env : CgEnv) (c : MoveContext) :
    List String → Bool → List WriteEv × Except Unit Bool
  | [], moved => ([], Except.ok moved)
  | nsName :: rest, moved =>
    match mapLookup env.currentCgroups nsName with
    | none => moveNs env c rest moved
    | some currentPath =>
      match mapLookup env.containerCgroups nsName with
      | none => moveNs env c rest moved
      | some containerPath =>
        if currentPath = containerPath ∨ containerPath = "/" then
          moveNs env c rest moved
        else
          match env.cgroupPids nsName containerPath with
          | none => ([], Except.error ())
          | some pids =>
            match movePids env c nsName currentPath pids moved with
            | (tr, Except.ok moved2) =>
              (tr ++ (moveNs env c rest moved2).1, (moveNs env c rest moved2).2)
            | (tr, Except.error e) => (tr, Except.error e)

/-- `MoveCgroups` (`src/lib/cgroups.go`) after its two successful membership
reads: iterate the target controller set with `moved` initially `false`. -/
def MoveCgroups (env : CgEnv) (c : MoveContext) : List WriteEv × Except Unit Bool :=
  moveNs env c (targetNs c env.containerCgroups) false

/-- On a non-error return of the pid loop, the resulting flag is the incoming
flag joined with whether some recorded write succeeded. -/
theorem movePids_ok_moved (env : CgEnv) (c : MoveContext) (nsName currentPath : String) :
    ∀ (pids : List String) (moved : Bool) (tr : List WriteEv) (m : Bool),
      movePids env c nsName currentPath pids moved = (tr, Except.ok m) →
      m = (moved || tr.any (fun ev => ev.ok)) := by
  intro pids
  induction pids with
  | nil =>
    intro moved tr m h
    simp only [movePids, Prod.mk.injEq, Except.ok.injEq] at h
    obtain ⟨h1, h2⟩ := h
    subst h1
    simp [h2]
  | cons pid rest ih =>
    intro moved tr m h
    simp only [movePids] at h
    split at h
    · exact ih moved tr m h
    · split at h
      · exact ih moved tr m h
      · split at h
        · simp only [Prod.mk.injEq] at h
          obtain ⟨h1, h2⟩ := h
          subst h1
          have hm : m = true := by
            have hpair : movePids env c nsName currentPath rest true =
                ((movePids env c nsName currentPath rest true).1, Except.ok m) := by
              rw [← h2]
            simpa using ih true (movePids env c nsName currentPath rest true).1 m hpair
          simp [hm, List.any_cons]
        · split at h
          · simp only [Prod.mk.injEq] at h
            obtain ⟨h1, h2⟩ := h
            subst h1
            have hpair : movePids env c nsName currentPath rest moved =
                ((movePids env c nsName currentPath rest moved).1, Except.ok m) := by
              rw [← h2]
            have := ih moved (movePids env c nsName currentPath rest moved).1 m hpair
            simp [this, List.any_cons]
          · simp only [Prod.mk.injEq] at h
            exact absurd h.2 (by simp)

/-- On a non-error return of the controller loop, the resulting flag is the
incoming flag joined with whether some recorded write succeeded. -/
theorem moveNs_ok_moved (env : CgEnv) (c : MoveContext) :
    ∀ (l : List String) (moved : Bool) (tr : List WriteEv) (m : Bool),
      moveNs env c l moved = (tr, Except.ok m) →
      m = (moved || tr.any (fun ev => ev.ok)) := by
  intro l
  induction l with
  | nil =>
    intro moved tr m h
    simp only [moveNs, Prod.mk.injEq, Except.ok.injEq] at h
    obtain ⟨h1, h2⟩ := h
    subst h1
    simp [h2]
  | cons nsName rest ih =>
    intro moved tr m h
    simp only [moveNs] at h
    split at h
    · exact ih moved tr m h
    · split at h
      · exact ih moved tr m h
      · split at h
        · exact ih moved tr m h
        · split at h
          · simp only [Prod.mk.injEq] at h
            exact absurd h.2 (by simp)
          · split at h
            · rename_i tr1 moved2 hmove
              simp only [Prod.mk.injEq] at h
              obtain ⟨h1, h2⟩ := h
              have hpair : moveNs env c rest moved2 =
                  ((moveNs env c rest moved2).1, Except.ok m) := by
                rw [← h2]
              have hrest := ih moved2 (moveNs env c rest moved2).1 m hpair
              have hfirst := movePids_ok_moved env c nsName _ _ moved tr1 moved2 hmove
              subst h1
              simp [hrest, hfirst, List.any_append, Bool.or_assoc]
            · simp only [Prod.mk.injEq] at h
              exact absurd h.2 (by simp)

/-- Every write event recorded by the pid loop carries the controller the
loop was invoked for. -/
theorem movePids_events_ns (env : CgEnv) (c : MoveContext) (nsName currentPath : String) :
    ∀ (pids : List String) (moved : Bool) (ev : WriteEv),
      ev ∈ (movePids env c nsName currentPath pids moved).1 → ev.ns = nsName := by
  intro pids
  induction pids with
  | nil =>
    intro moved ev h
    simp [movePids] at h
  | cons pid rest ih =>
    intro moved ev h
    simp only [movePids] at h
    split at h
    · exact ih moved ev h
    · split at h
      · exact ih moved ev h
      · split at h
        · rcases List.mem_cons.mp h with rfl | h2
          · rfl
          · exact ih true ev h2
        · split at h
          · rcases List.mem_cons.mp h with rfl | h2
            · rfl
            · exact ih moved ev h2
          · rcases List.mem_cons.mp h with rfl | h2
            · rfl
            · simp at h2

/-- Every write event recorded by the controller loop belongs to a controller
present in both membership maps whose paths differ and whose container path
is not the filesystem root. -/
theorem moveNs_events_guarded (env : CgEnv) (c : MoveContext) :
    ∀ (l : List String) (moved : Bool) (ev : WriteEv),
      ev ∈ (moveNs env c l moved).1 →
      ∃ cur cont, mapLookup env.currentCgroups ev.ns = some cur ∧
        mapLookup env.containerCgroups ev.ns = some cont ∧ cur ≠ cont ∧ cont ≠ "/" := by
  intro l
  induction l with
  | nil =>
    intro moved ev h
    simp [moveNs] at h
  | cons nsName rest ih =>
    intro moved ev h
    simp only [moveNs] at h
    split at h
    · exact ih moved ev h
    · rename_i currentPath hcur
      split at h
      · exact ih moved ev h
      · rename_i containerPath hcont
        split at h
        · exact ih moved ev h
        · rename_i hguard
          split at h
          · simp at h
          · split at h
            · rename_i tr1 moved2 hmove
              rcases List.mem_append.mp h with h2 | h2
              · have hns : ev.ns = nsName := by
                  apply movePids_events_ns env c nsName currentPath _ moved ev
                  rw [hmove]
                  exact h2
                refine ⟨currentPath, containerPath, ?_, ?_, ?_, ?_⟩
                · rw [hns]; exact hcur
                · rw [hns]; exact hcont
                · exact fun hEq => hguard (Or.inl hEq)
                · exact fun hRoot => hguard (Or.inr hRoot)
              · exact ih moved2 ev h2
            · rename_i tr1 e hmove
              have hns : ev.ns = nsName := by
                apply movePids_events_ns env c nsName currentPath _ moved ev
                rw [hmove]
                exact h
              refine ⟨currentPath, containerPath, ?_, ?_, ?_, ?_⟩
              · rw [hns]; exact hcur
              · rw [hns]; exact hcont
              · exact fun hEq => hguard (Or.inl hEq)
              · exact fun hRoot => hguard (Or.inr hRoot)

/-- C1: in `MoveCgroups`, a pid found dead before the write is skipped with no
error and no trace event; a failed write whose pid is dead on the re-check is
swallowed (the failure is recorded but the loop continues with the same
outcome as without the pid); any other write failure aborts the whole
migration with an error; and on a non-error return the `moved` result is true
exactly when some recorded write succeeded. -/
theorem moveCgroups_pid_race_handling (env : CgEnv) (c : MoveContext) :
    (∀ nsName currentPath pid rest moved p,
      atoi? pid = some p → env.hasPidDied1 p = true →
      movePids env c nsName currentPath (pid :: rest) moved =
        movePids env c nsName currentPath rest moved)
    ∧ (∀ nsName currentPath pid rest moved p,
      atoi? pid = some p → env.hasPidDied1 p = false →
      env.writeOk pid (constructCgroupPath c nsName currentPath) = false →
      env.hasPidDied2 p = true →
      movePids env c nsName currentPath (pid :: rest) moved =
        (⟨nsName, pid, constructCgroupPath c nsName currentPath, false⟩ ::
            (movePids env c nsName currentPath rest moved).1,
         (movePids env c nsName currentPath rest moved).2))
    ∧ (∀ nsName currentPath pid rest moved p,
      atoi? pid = some p → env.hasPidDied1 p = false →
      env.writeOk pid (constructCgroupPath c nsName currentPath) = false →
      env.hasPidDied2 p = false →
      movePids env c nsName currentPath (pid :: rest) moved =
        ([⟨nsName, pid, constructCgroupPath c nsName currentPath, false⟩], Except.error ()))
    ∧ (∀ m, (MoveCgroups env c).2 = Except.ok m →
        m = (MoveCgroups env c).1.any (fun ev => ev.ok)) := by
  refine ⟨?_, ?_, ?_, ?_⟩
  · intro nsName currentPath pid rest moved p hp hd
    simp [movePids, hp, hd]
  · intro nsName currentPath pid rest moved p hp hd hw hd2
    simp [movePids, hp, hd, hw, hd2]
  · intro nsName currentPath pid rest moved p hp hd hw hd2
    simp [movePids, hp, hd, hw, hd2]
  · intro m hm
    have hpair : moveNs env c (targetNs c env.containerCgroups) false =
        ((MoveCgroups env c).1, Except.ok m) := by
      rw [← hm]
      rfl
    have := moveNs_ok_moved env c (targetNs c env.containerCgroups) false
      (MoveCgroups env c).1 m hpair
    simpa using this

/-- Oracle environment for the migration witnesses: pid 5 is dead up front,
pid 6 dies during its failing write, pid 8 fails its write while alive, and
pid 7's write succeeds. -/
def wCgEnv : CgEnv where
  currentCgroups := [("cpu", "/system")]
  containerCgroups := [("cpu", "/docker/abc")]
  cgroupPids := fun ns p => if ns = "cpu" ∧ p = "/docker/abc" then some ["7"] else none
  hasPidDied1 := fun p => p == 5
  hasPidDied2 := fun p => p == 6
  writeOk := fun pid _ => pid == "7"

/-- Run context for the migration witnesses: all controllers requested. -/
def wMoveCtx : MoveContext where
  cgroups := none
  allCgroups := true
  unifiedHiearchy := false

/-- Witness for `moveCgroups_pid_race_handling` at a concrete environment. -/
theorem moveCgroups_pid_race_handling_witness :
    (movePids wCgEnv wMoveCtx "cpu" "/system" ["5"] false =
      movePids wCgEnv wMoveCtx "cpu" "/system" [] false)
    ∧ (movePids wCgEnv wMoveCtx "cpu" "/system" ["6"] false =
        (⟨"cpu", "6", constructCgroupPath wMoveCtx "cpu" "/system", false⟩ ::
            (movePids wCgEnv wMoveCtx "cpu" "/system" [] false).1,
         (movePids wCgEnv wMoveCtx "cpu" "/system" [] false).2))
    ∧ (movePids wCgEnv wMoveCtx "cpu" "/system" ["8"] false =
        ([⟨"cpu", "8", constructCgroupPath wMoveCtx "cpu" "/system", false⟩],
         Except.error ()))
    ∧ (true = (MoveCgroups wCgEnv wMoveCtx).1.any (fun ev => ev.ok)) :=
  ⟨(moveCgroups_pid_race_handling wCgEnv wMoveCtx).1 "cpu" "/system" "5" [] false 5
      rfl rfl,
   (moveCgroups_pid_race_handling wCgEnv wMoveCtx).2.1 "cpu" "/system" "6" [] false 6
      rfl rfl rfl rfl,
   (moveCgroups_pid_race_handling wCgEnv wMoveCtx).2.2.1 "cpu" "/system" "8" [] false 8
      rfl rfl rfl rfl,
   (moveCgroups_pid_race_handling wCgEnv wMoveCtx).2.2.2 true rfl⟩

/-- C3: every write attempt recorded by `MoveCgroups` is for a controller
present in both membership maps, with the supervisor's path different from
the container's path and the container's path not the filesystem root `/`;
controllers failing those guards are skipped without any write. -/
theorem moveCgroups_never_writes_root (env : CgEnv) (c : MoveContext) (ev : WriteEv)
    (hmem : ev ∈ (MoveCgroups env c).1) :
    ∃ cur cont, mapLookup env.currentCgroups ev.ns = some cur ∧
      mapLookup env.containerCgroups ev.ns = some cont ∧ cur ≠ cont ∧ cont ≠ "/" :=
  moveNs_events_guarded env c (targetNs c env.containerCgroups) false ev hmem

/-- Witness for `moveCgroups_never_writes_root` at the write event produced
by the concrete environment. -/
theorem moveCgroups_never_writes_root_witness :
    ∃ cur cont,
      mapLookup wCgEnv.currentCgroups
        (WriteEv.mk "cpu" "7" (constructCgroupPath wMoveCtx "cpu" "/system") true).ns
        = some cur ∧
      mapLookup wCgEnv.containerCgroups
        (WriteEv.mk "cpu" "7" (constructCgroupPath wMoveCtx "cpu" "/system") true).ns
        = some cont ∧ cur ≠ cont ∧ cont ≠ "/" :=
  moveCgroups_never_writes_root wCgEnv wMoveCtx
    (WriteEv.mk "cpu" "7" (constructCgroupPath wMoveCtx "cpu" "/system") true)
    (by rw [show (MoveCgroups wCgEnv wMoveCtx).1 =
          [WriteEv.mk "cpu" "7" (constructCgroupPath wMoveCtx "cpu" "/system") true]
        from rfl]; exact List.mem_singleton.mpr rfl)

/-- C4 counterexample: with the all-cgroups flag off and an explicitly empty
(but non-nil) selection, the target controller set is every controller of the
container's membership, not the empty explicit selection — the claim's
"otherwise exactly the named controllers, no more" fails. -/
def emptySelCtx : MoveContext where
  cgroups := some []
  allCgroups := false
  unifiedHiearchy := false

/-- Counterexample for C4 as stated: `emptySelCtx` requests no controllers
("all" not requested, explicit selection empty), yet the computed target set
is `["cpu"]` rather than the named (empty) selection. -/
theorem targetNs_empty_selection_cex :
    emptySelCtx.allCgroups = false
    ∧ emptySelCtx.cgroups = some ([] : List String)
    ∧ targetNs emptySelCtx [("cpu", "/docker/abc")] = ["cpu"]
    ∧ targetNs emptySelCtx [("cpu", "/docker/abc")] ≠ emptySelCtx.cgroups.getD [] := by
  exact ⟨rfl, rfl, rfl, by decide⟩

/-- C4 amended: the target controller set is every controller present in the
container's membership when the run context requests "all" — or when its
explicit selection is nil or empty — and is exactly the explicitly named
controllers otherwise. -/
theorem moveCgroups_target_controller_set (c : MoveContext) (m : Cgmap) :
    (c.allCgroups = true → targetNs c m = m.map Prod.fst)
    ∧ ((c.cgroups.getD []).length = 0 → targetNs c m = m.map Prod.fst)
    ∧ (c.allCgroups = false → (c.cgroups.getD []).length ≠ 0 →
        targetNs c m = c.cgroups.getD []) := by
  refine ⟨fun h => ?_, fun h => ?_, fun h1 h2 => ?_⟩
  · simp [targetNs, h]
  · simp [targetNs, h]
  · cases hc : c.cgroups with
    | none => exact absurd (by simp [hc]) h2
    | some l =>
      have hl : ¬ l.length = 0 := by simpa [hc] using h2
      simp [targetNs, h1, hc, hl]

/-- Run context naming one explicit controller, for the target-set witness. -/
def namedSelCtx : MoveContext where
  cgroups := some ["memory"]
  allCgroups := false
  unifiedHiearchy := false

/-- Witness for `moveCgroups_target_controller_set` at concrete contexts. -/
theorem moveCgroups_target_controller_set_witness :
    targetNs wMoveCtx [("cpu", "/docker/abc")] = [("cpu", "/docker/abc")].map Prod.fst
    ∧ targetNs namedSelCtx [("cpu", "/docker/abc")] = namedSelCtx.cgroups.getD [] :=
  ⟨(moveCgroups_target_controller_set wMoveCtx [("cpu", "/docker/abc")]).1 rfl,
   (moveCgroups_target_controller_set namedSelCtx [("cpu", "/docker/abc")]).2.2 rfl
     (by decide)⟩

/-! ### The health-check monitor (`src/lib/monitor.go`)

`(*monitor).Start` runs a loop over docker events, holding a `ready` flag
(initially false) and the execution id of the last event whose `exec_start`
action text ended with the health-check command.  `(*monitor).notify` writes
`READY=1` when not ready (returning the new flag: true exactly on a
successful send) and `WATCHDOG=1` once ready (always returning true).  Sends
on the notification connection are modelled by an oracle indexed by how many
writes were attempted before, and the attempted payloads are recorded. -/

/-- A docker API event as consumed by the monitor: the action text and the
`execID` / `exitCode` actor attributes. -/
structure Ev where
  action : String
  execID : String
  exitCode : String
deriving DecidableEq

/-- The monitor loop state: the `ready` flag, the remembered last relevant
execution id, and the payloads written to the connection so far. -/
structure MonState where
  ready : Bool
  lastId : String
  msgs : List String
deriving DecidableEq

/-- `(*monitor).notify` (`src/lib/monitor.go`): when not ready, attempt
`READY=1` and report readiness exactly on send success; when already ready,
attempt `WATCHDOG=1` and report readiness regardless of the send outcome. -/
def notify (sendOk : Nat → Bool) (st : MonState) : MonState :=
  if st.ready = false then
    if sendOk st.msgs.length then
      { st with msgs := st.msgs ++ ["READY=1"], ready := true }
    else
      { st with msgs := st.msgs ++ ["READY=1"], ready := false }
  else
    { st with msgs := st.msgs ++ ["WATCHDOG=1"], ready := true }

/-- The exit-event test of the monitor loop
(`ev.Action == "stop" || "kill" || "die" || "oom"`). -/
def isStopAction (a : String) : Bool :=
  a == "stop" || a == "kill" || a == "die" || a == "oom"

/-- One iteration of the `(*monitor).Start` event loop; the second component
is true when the loop returns (container exiting). -/
def monStep (hcCmd : String) (sendOk : Nat → Bool) (st : MonState) (ev : Ev) :
    MonState × Bool :=
  if goStartsWith ev.action "health_status: " then
    (if ev.action = "health_status: healthy" then notify sendOk st else st, false)
  else if isStopAction ev.action then
    (st, true)
  else if goStartsWith ev.action "exec_start: " then
    (if goEndsWith ev.action hcCmd then { st with lastId := ev.execID } else st, false)
  else if ev.action = "exec_die" then
    (if ev.execID = st.lastId then
      (if ev.exitCode = "0" then notify sendOk st else st)
    else st, false)
  else
    (st, false)

/-- The `(*monitor).Start` loop over a finite event schedule, stopping early
on a container-exit event. -/
def runMon (hcCmd : String) (sendOk : Nat → Bool) : MonState → List Ev → MonState
  | st, [] => st
  | st, ev :: rest =>
    if (monStep hcCmd sendOk st ev).2 then (monStep hcCmd sendOk st ev).1
    else runMon hcCmd sendOk (monStep hcCmd sendOk st ev).1 rest

/-- The initial loop state of `(*monitor).Start`: not ready, no remembered
execution id, nothing written. -/
def monInit : MonState where
  ready := false
  lastId := ""
  msgs := []

/-- `(*monitor).Start` from its initial state. -/
def monitorStart (hcCmd : String) (sendOk : Nat → Bool) (evs : List Ev) : MonState :=
  runMon hcCmd sendOk monInit evs

/-- `notify` never takes the ready flag from true to false. -/
theorem notify_preserves_ready (sendOk : Nat → Bool) (st : MonState)
    (h : st.ready = true) : (notify sendOk st).ready = true := by
  simp [notify, h]

/-- `monStep` never takes the ready flag from true to false. -/
theorem monStep_preserves_ready (hcCmd : String) (sendOk : Nat → Bool) (st : MonState)
    (ev : Ev) (h : st.ready = true) : (monStep hcCmd sendOk st ev).1.ready = true := by
  unfold monStep
  split
  · split
    · exact notify_preserves_ready sendOk st h
    · exact h
  · split
    · exact h
    · split
      · split
        · exact h
        · exact h
      · split
        · split
          · split
            · exact notify_preserves_ready sendOk st h
            · exact h
          · exact h
        · exact h

/-- C2: the monitor's ready state is monotonic — the loop starts not ready;
when not ready, `notify` attempts `READY=1` and the state becomes ready
exactly when that send succeeds; once ready, `notify` attempts `WATCHDOG=1`
instead and the state stays ready; and no run of the loop ever takes the
state from ready back to not ready. -/
theorem monitor_ready_monotonic :
    monInit.ready = false
    ∧ (∀ (sendOk : Nat → Bool) (st : MonState), st.ready = false →
        notify sendOk st =
          { st with msgs := st.msgs ++ ["READY=1"], ready := sendOk st.msgs.length })
    ∧ (∀ (sendOk : Nat → Bool) (st : MonState), st.ready = true →
        notify sendOk st = { st with msgs := st.msgs ++ ["WATCHDOG=1"] })
    ∧ (∀ (hcCmd : String) (sendOk : Nat → Bool) (st : MonState) (evs : List Ev),
        st.ready = true → (runMon hcCmd sendOk st evs).ready = true) := by
  refine ⟨rfl, ?_, ?_, ?_⟩
  · intro sendOk st h
    cases hs : sendOk st.msgs.length <;> simp [notify, h, hs]
  · intro sendOk st h
    cases st with
    | mk r l msgs =>
      simp only at h
      subst h
      simp [notify]
  · intro hcCmd sendOk st evs
    induction evs generalizing st with
    | nil =>
      intro h
      simpa [runMon] using h
    | cons ev rest ih =>
      intro h
      simp only [runMon]
      split
      · exact monStep_preserves_ready hcCmd sendOk st ev h
      · exact ih _ (monStep_preserves_ready hcCmd sendOk st ev h)

/-- Witness for `monitor_ready_monotonic` at concrete states and schedules. -/
theorem monitor_ready_monotonic_witness :
    notify (fun _ => false) monInit =
      { monInit with msgs := monInit.msgs ++ ["READY=1"], ready := (fun _ => false) 0 }
    ∧ notify (fun _ => false) (MonState.mk true "" []) =
      { MonState.mk true "" [] with msgs := [] ++ ["WATCHDOG=1"] }
    ∧ (runMon "check" (fun _ => false) (MonState.mk true "" [])
        [Ev.mk "exec_die" "x" "1"]).ready = true :=
  ⟨(monitor_ready_monotonic.2.1 (fun _ => false) monInit rfl : _),
   monitor_ready_monotonic.2.2.1 (fun _ => false) (MonState.mk true "" []) rfl,
   monitor_ready_monotonic.2.2.2 "check" (fun _ => false) (MonState.mk true "" [])
     [Ev.mk "exec_die" "x" "1"] rfl⟩

/-- Of two prefixes of the same list, the shorter is a prefix of the
longer. -/
theorem prefix_of_prefix_le {α : Type} (l₁ l₂ l₃ : List α) (h1 : l₁ <+: l₃)
    (h2 : l₂ <+: l₃) (hlen : l₁.length ≤ l₂.length) : l₁ <+: l₂ := by
  have e1 := List.prefix_iff_eq_take.mp h1
  have e2 := List.prefix_iff_eq_take.mp h2
  rw [e1, e2]
  exact List.take_prefix_take_left l₃ hlen

/-- C6: an `exec_start` event whose action text ends with the stored
health-check command records that event's execution id (the earlier branches
of the loop's cascade cannot fire on an `exec_start: ` action); an `exec_die`
event calls `notify` exactly when its execution id equals the recorded one
and its exit code attribute is `"0"`; an `exec_die` with a non-matching
execution id or a nonzero exit code leaves the state unchanged and sends
nothing. -/
theorem monitor_exec_event_matching (hcCmd : String) (sendOk : Nat → Bool)
    (st : MonState) (ev : Ev) :
    (goStartsWith ev.action "exec_start: " = true →
     goEndsWith ev.action hcCmd = true →
     monStep hcCmd sendOk st ev = ({ st with lastId := ev.execID }, false))
    ∧ (ev.action = "exec_die" → ev.execID = st.lastId → ev.exitCode = "0" →
       monStep hcCmd sendOk st ev = (notify sendOk st, false))
    ∧ (ev.action = "exec_die" → ev.execID ≠ st.lastId →
       monStep hcCmd sendOk st ev = (st, false))
    ∧ (ev.action = "exec_die" → ev.exitCode ≠ "0" →
       monStep hcCmd sendOk st ev = (st, false)) := by
  have e1 : goStartsWith "exec_die" "health_status: " = false := rfl
  have e2 : isStopAction "exec_die" = false := rfl
  have e3 : goStartsWith "exec_die" "exec_start: " = false := rfl
  refine ⟨fun h3 h4 => ?_, fun hA hid hec => ?_, fun hA hid => ?_, fun hA hec => ?_⟩
  · have hpre : "exec_start: ".data <+: ev.action.data := by
      simpa [goStartsWith, List.isPrefixOf_iff_prefix] using h3
    have h1 : goStartsWith ev.action "health_status: " = false := by
      cases hb : goStartsWith ev.action "health_status: " with
      | false => rfl
      | true =>
        have hpre2 : "health_status: ".data <+: ev.action.data := by
          simpa [goStartsWith, List.isPrefixOf_iff_prefix] using hb
        have : "exec_start: ".data <+: "health_status: ".data :=
          prefix_of_prefix_le _ _ _ hpre hpre2 (by decide)
        exact absurd this (by decide)
    have hne : ∀ s : String, ¬ ("exec_start: ".data <+: s.data) → ev.action ≠ s := by
      intro s hns heq
      exact hns (heq ▸ hpre)
    have h2 : isStopAction ev.action = false := by
      have n1 := hne "stop" (by decide)
      have n2 := hne "kill" (by decide)
      have n3 := hne "die" (by decide)
      have n4 := hne "oom" (by decide)
      simp [isStopAction, beq_iff_eq, n1, n2, n3, n4]
    simp [monStep, h1, h2, h3, h4]
  · simp [monStep, hA, e1, e2, e3, hid, hec]
  · simp [monStep, hA, e1, e2, e3, hid]
  · by_cases hm : ev.execID = st.lastId <;> simp [monStep, hA, e1, e2, e3, hm, hec]

/-- Witness for `monitor_exec_event_matching` at concrete events. -/
theorem monitor_exec_event_matching_witness :
    monStep "curl -f localhost" (fun _ => true) monInit
        (Ev.mk "exec_start: /bin/sh -c curl -f localhost" "e1" "") =
      ({ monInit with lastId := "e1" }, false)
    ∧ monStep "curl -f localhost" (fun _ => true) (MonState.mk false "e1" [])
        (Ev.mk "exec_die" "e1" "0") =
      (notify (fun _ => true) (MonState.mk false "e1" []), false)
    ∧ monStep "curl -f localhost" (fun _ => true) (MonState.mk false "e1" [])
        (Ev.mk "exec_die" "e2" "0") = (MonState.mk false "e1" [], false)
    ∧ monStep "curl -f localhost" (fun _ => true) (MonState.mk false "e1" [])
        (Ev.mk "exec_die" "e1" "1") = (MonState.mk false "e1" [], false) :=
  ⟨(monitor_exec_event_matching "curl -f localhost" (fun _ => true) monInit
      (Ev.mk "exec_start: /bin/sh -c curl -f localhost" "e1" "")).1 rfl rfl,
   (monitor_exec_event_matching "curl -f localhost" (fun _ => true)
      (MonState.mk false "e1" []) (Ev.mk "exec_die" "e1" "0")).2.1 rfl rfl rfl,
   (monitor_exec_event_matching "curl -f localhost" (fun _ => true)
      (MonState.mk false "e1" []) (Ev.mk "exec_die" "e2" "0")).2.2.1 rfl (by decide),
   (monitor_exec_event_matching "curl -f localhost" (fun _ => true)
      (MonState.mk false "e1" []) (Ev.mk "exec_die" "e1" "1")).2.2.2 rfl (by decide)⟩

/-! ### The container lifecycle orchestrator (`src/lib/container.go`)

`RunContainer` first resolves the named container (`lookupNamedContainer`),
then creates it (and joins extra networks) when no id was resolved, then
starts it when no pid was resolved, failing when the pid is still zero.  The
docker API and CLI are oracles; the calls issued are recorded as a trace. -/

/-- Result of inspecting the named container: the typed no-such-container
error, any other inspection error, or the container with its id, running
flag and pid. -/
inductive InspectRes where
  | noSuch : InspectRes
  | errorRes : InspectRes
  | found : String → Bool → Int → InspectRes
deriving DecidableEq

/-- A docker API/CLI call issued by the orchestrator. -/
inductive DockerOp where
  | inspect : String → DockerOp
  | remove : String → DockerOp
  | create : DockerOp
  | joinNet : String → DockerOp
  | startCli : String → DockerOp
  | inspectPid : String → DockerOp
deriving DecidableEq

/-- The slice of the run context that `RunContainer` reads and writes. -/
structure RCtx where
  name : String
  id : String
  pid : Int
  rm : Bool
deriving DecidableEq

/-- Oracle environment for one `RunContainer` call. -/
structure DockerEnv where
  /-- `InspectContainerWithOptions` on the container name. -/
  inspectByName : InspectRes
  /-- Success of the force `RemoveContainer` call. -/
  removeOk : Bool
  /-- Trimmed stdout of `docker create` (`none` is a CLI failure). -/
  createRes : Option String
  /-- The networks of the run context, in iteration order. -/
  networks : List (String × String)
  /-- Success of each `docker network connect` call. -/
  joinCliOk : String → Bool
  /-- Success of the `docker start` CLI call. -/
  startCliOk : Bool
  /-- `getContainerPid`'s inspection by container id (`none` is an
  inspection error or a nil container). -/
  pidOf : String → Option Int

/-- `lookupNamedContainer` (`src/lib/container.go`): a running container is
reused (id and pid copied from the inspection); a stopped one is
force-removed when removal-on-exit is set; otherwise the context is left
untouched. -/
def lookupNamedContainer (env : DockerEnv) (c : RCtx) : List DockerOp × Except Unit RCtx :=
  match env.inspectByName with
  | InspectRes.noSuch => ([DockerOp.inspect c.name], Except.ok c)
  | InspectRes.errorRes => ([DockerOp.inspect c.name], Except.error ())
  | InspectRes.found cid running pid =>
    if running then
      ([DockerOp.inspect c.name], Except.ok { c with id := cid, pid := pid })
    else if c.rm then
      ([DockerOp.inspect c.name, DockerOp.remove cid],
       if env.removeOk then Except.ok c else Except.error ())
    else
      ([DockerOp.inspect c.name], Except.ok c)

/-- `createContainer` (`src/lib/container.go`): run `docker create` and store
its trimmed stdout as the container id. -/
def createContainer (env : DockerEnv) (c : RCtx) : List DockerOp × Except Unit RCtx :=
  ([DockerOp.create],
   match env.createRes with
   | some out => Except.ok { c with id := out }
   | none => Except.error ())

/-- The network loop of `joinNetworks` (`src/lib/container.go`): one
`docker network connect` per configured network, aborting on the first
failing call. -/
def joinLoop (env : DockerEnv) (c : RCtx) :
    List (String × String) → List DockerOp × Except Unit RCtx
  | [] => ([], Except.ok c)
  | (nm, _) :: rest =>
    if env.joinCliOk nm then
      (DockerOp.joinNet nm :: (joinLoop env c rest).1, (joinLoop env c rest).2)
    else
      ([DockerOp.joinNet nm], Except.error ())

/-- `joinNetworks` (`src/lib/container.go`). -/
def joinNetworks (env : DockerEnv) (c : RCtx) : List DockerOp × Except Unit RCtx :=
  joinLoop env c env.networks

/-- `startContainer` (`src/lib/container.go`): run `docker start` on the
resolved id, then read the pid back through `getContainerPid`, which fails
on an inspection error, a nil container or a non-positive pid. -/
def startContainer (env : DockerEnv) (c : RCtx) : List DockerOp × Except Unit RCtx :=
  if env.startCliOk then
    match env.pidOf c.id with
    | some pid =>
      ([DockerOp.startCli c.id, DockerOp.inspectPid c.id],
       if pid ≤ 0 then Except.error () else Except.ok { c with pid := pid })
    | none => ([DockerOp.startCli c.id, DockerOp.inspectPid c.id], Except.error ())
  else
    ([DockerOp.startCli c.id], Except.error ())

/-- `RunContainer` (`src/lib/container.go`): resolve the name, create (and
join networks) when no id was resolved, start when no pid was resolved, and
fail when the pid is still zero. -/
def RunContainer (env : DockerEnv) (c : RCtx) : List DockerOp × Except Unit RCtx :=
  match lookupNamedContainer env c with
  | (tr1, Except.error e) => (tr1, Except.error e)
  | (tr1, Except.ok c1) =>
    match
      (if c1.id = "" then
        match createContainer env c1 with
        | (trc, Except.error e) => (trc, Except.error e)
        | (trc, Except.ok c2) =>
          (trc ++ (joinNetworks env c2).1, (joinNetworks env c2).2)
      else ([], Except.ok c1)) with
    | (tr2, Except.error e) => (tr1 ++ tr2, Except.error e)
    | (tr2, Except.ok c2) =>
      match (if c2.pid = 0 then startContainer env c2 else ([], Except.ok c2)) with
      | (tr3, Except.error e) => (tr1 ++ tr2 ++ tr3, Except.error e)
      | (tr3, Except.ok c3) =>
        if c3.pid = 0 then (tr1 ++ tr2 ++ tr3, Except.error ())
        else (tr1 ++ tr2 ++ tr3, Except.ok c3)

/-- C8: resolving a name whose container is running copies the inspected id
and pid into the context and returns with no create, start or remove call:
the trace holds the single name inspection and the pid is the inspected one,
unchanged. -/
theorem runContainer_running_reuse (env : DockerEnv) (c : RCtx) (cid : String) (pid : Int)
    (hfound : env.inspectByName = InspectRes.found cid true pid)
    (hid : cid ≠ "") (hpid : pid ≠ 0) :
    RunContainer env c =
      ([DockerOp.inspect c.name], Except.ok { c with id := cid, pid := pid }) := by
  simp [RunContainer, lookupNamedContainer, hfound, hid, hpid]

/-- Environment whose named container is running with id `abc` and pid 42. -/
def runningEnv : DockerEnv where
  inspectByName := InspectRes.found "abc" true 42
  removeOk := true
  createRes := none
  networks := []
  joinCliOk := fun _ => true
  startCliOk := false
  pidOf := fun _ => none

/-- Fresh run context for the lifecycle witnesses. -/
def freshCtx : RCtx where
  name := "web"
  id := ""
  pid := 0
  rm := false

/-- Witness for `runContainer_running_reuse` at a concrete environment. -/
theorem runContainer_running_reuse_witness :
    RunContainer runningEnv freshCtx =
      ([DockerOp.inspect "web"], Except.ok (RCtx.mk "web" "abc" 42 false)) :=
  runContainer_running_reuse runningEnv freshCtx "abc" 42 rfl (by decide) (by decide)

/-- Environment whose named container exists but is stopped (id `oldid`,
stale pid 7); `docker create` yields `newid`, which starts with pid 42. -/
def stoppedEnv : DockerEnv where
  inspectByName := InspectRes.found "oldid" false 7
  removeOk := true
  createRes := some "newid"
  networks := []
  joinCliOk := fun _ => true
  startCliOk := true
  pidOf := fun i => if i = "newid" then some 42 else none

/-- Fresh run context without removal-on-exit, resolving a stopped
container. -/
def stoppedNoRmCtx : RCtx where
  name := "web"
  id := ""
  pid := 0
  rm := false

/-- Counterexample for C7 as stated: resolving a stopped container without
removal-on-exit does NOT restart it in place — `lookupNamedContainer` leaves
the context untouched, so `RunContainer` proceeds through the absent path: a
`docker create` is issued and the resolved id is the freshly created
container's id, not the inspected stopped container's id. -/
theorem runContainer_stopped_noRm_cex :
    RunContainer stoppedEnv stoppedNoRmCtx =
      ([DockerOp.inspect "web", DockerOp.create, DockerOp.startCli "newid",
        DockerOp.inspectPid "newid"],
       Except.ok (RCtx.mk "web" "newid" 42 false))
    ∧ DockerOp.create ∈ (RunContainer stoppedEnv stoppedNoRmCtx).1
    ∧ Option.map (fun r => r.id) (RunContainer stoppedEnv stoppedNoRmCtx).2.toOption
        = some "newid"
    ∧ "newid" ≠ "oldid" := by
  exact ⟨rfl, by decide, rfl, by decide⟩

/-- C7 amended: resolving a named container that exists but is stopped
proceeds through the absent path (create, then start) in both cases — with
removal-on-exit requested a force-remove of the inspected container is issued
first; without it the stopped container is left untouched (no remove, no
in-place restart) and a fresh container is created and started all the
same. -/
theorem runContainer_stopped_resolution (env : DockerEnv) (c : RCtx) (cid : String)
    (pid : Int) (nid : String) (p : Int)
    (hfound : env.inspectByName = InspectRes.found cid false pid)
    (hid : c.id = "") (hpid : c.pid = 0)
    (hcreate : env.createRes = some nid)
    (hnets : env.networks = [])
    (hstart : env.startCliOk = true)
    (hpidOf : env.pidOf nid = some p) (hp : 0 < p) :
    (c.rm = true → env.removeOk = true →
      RunContainer env c =
        ([DockerOp.inspect c.name, DockerOp.remove cid, DockerOp.create,
          DockerOp.startCli nid, DockerOp.inspectPid nid],
         Except.ok { c with id := nid, pid := p }))
    ∧ (c.rm = false →
      RunContainer env c =
        ([DockerOp.inspect c.name, DockerOp.create,
          DockerOp.startCli nid, DockerOp.inspectPid nid],
         Except.ok { c with id := nid, pid := p })) := by
  have hple : ¬ p ≤ 0 := by omega
  have hpne : ¬ p = 0 := by omega
  refine ⟨fun hrm hrem => ?_, fun hrm => ?_⟩
  · simp [RunContainer, lookupNamedContainer, createContainer, joinNetworks, joinLoop,
      startContainer, hfound, hid, hpid, hcreate, hnets, hstart, hpidOf, hrm, hrem,
      hple, hpne]
  · simp [RunContainer, lookupNamedContainer, createContainer, joinNetworks, joinLoop,
      startContainer, hfound, hid, hpid, hcreate, hnets, hstart, hpidOf, hrm,
      hple, hpne]

/-- Fresh run context with removal-on-exit, resolving a stopped container. -/
def stoppedRmCtx : RCtx where
  name := "web"
  id := ""
  pid := 0
  rm := true

/-- Witness for `runContainer_stopped_resolution` at concrete contexts, with
and without removal-on-exit. -/
theorem runContainer_stopped_resolution_witness :
    RunContainer stoppedEnv stoppedRmCtx =
      ([DockerOp.inspect "web", DockerOp.remove "oldid", DockerOp.create,
        DockerOp.startCli "newid", DockerOp.inspectPid "newid"],
       Except.ok (RCtx.mk "web" "newid" 42 true))
    ∧ RunContainer stoppedEnv stoppedNoRmCtx =
      ([DockerOp.inspect "web", DockerOp.create,
        DockerOp.startCli "newid", DockerOp.inspectPid "newid"],
       Except.ok (RCtx.mk "web" "newid" 42 false)) :=
  ⟨(runContainer_stopped_resolution stoppedEnv stoppedRmCtx "oldid" 7 "newid" 42
      rfl rfl rfl rfl rfl rfl rfl (by decide)).1 rfl rfl,
   (runContainer_stopped_resolution stoppedEnv stoppedNoRmCtx "oldid" 7 "newid" 42
      rfl rfl rfl rfl rfl rfl rfl (by decide)).2 rfl⟩

/-! ### The ownership notification (`Notify`, `src/unnamed/part_006`)

`Notify` probes container liveness, returns silently when no notification
socket is configured, dials the datagram socket, writes `MAINPID=<pid>`,
re-probes liveness (correcting to its own pid, closing and failing when the
container died in the window), and finally either leaves notification to the
health-check monitor or sends a single `READY=1`. -/

/-- The slice of the run context that `Notify` reads. -/
structure NCtx where
  name : String
  pid : Int
  notifySocket : String
  /-- The `Notify` flag: when set, readiness is delegated (the container
  itself notifies), so no monitor is created and no `READY=1` is sent. -/
  notifyFlag : Bool
deriving DecidableEq

/-- The distinct error returns of `Notify`. -/
inductive NotifyErr where
  | exitedBeforeNotify : NotifyErr
  | dialErr : NotifyErr
  | writeErr : NotifyErr
  | monitorErr : NotifyErr
deriving DecidableEq

/-- An effect on the notification datagram connection. -/
inductive NotifyEff where
  | dial : NotifyEff
  | send : String → NotifyEff
  | close : NotifyEff
deriving DecidableEq

/-- Oracle environment for one `Notify` call: the two `HasPidDied` probes,
dial and write outcomes, the supervisor's own pid, the `CreateMonitor`
outcome (`Except.error` a creation error, `none` no health check configured,
`some` a monitor handed the connection) and the `READY=1` write outcome. -/
structure NotifyEnv where
  died1 : Bool
  dialOk : Bool
  sendMainOk : Bool
  died2 : Bool
  ownPid : Int
  monitorRes : Except Unit (Option Unit)
  sendReadyOk : Bool

/-- `Notify` (`src/unnamed/part_006`), with the performed connection effects
as a trace. -/
def Notify (env : NotifyEnv) (c : NCtx) : List NotifyEff × Except NotifyErr Unit :=
  if env.died1 then ([], Except.error NotifyErr.exitedBeforeNotify)
  else if c.notifySocket = "" then ([], Except.ok ())
  else if env.dialOk = false then ([NotifyEff.dial], Except.error NotifyErr.dialErr)
  else if env.sendMainOk = false then
    ([NotifyEff.dial, NotifyEff.send ("MAINPID=" ++ toString c.pid), NotifyEff.close],
     Except.error NotifyErr.writeErr)
  else if env.died2 then
    ([NotifyEff.dial, NotifyEff.send ("MAINPID=" ++ toString c.pid),
      NotifyEff.send ("MAINPID=" ++ toString env.ownPid), NotifyEff.close],
     Except.error NotifyErr.exitedBeforeNotify)
  else if c.notifyFlag then
    ([NotifyEff.dial, NotifyEff.send ("MAINPID=" ++ toString c.pid)], Except.ok ())
  else
    match env.monitorRes with
    | Except.error _ =>
      ([NotifyEff.dial, NotifyEff.send ("MAINPID=" ++ toString c.pid)],
       Except.error NotifyErr.monitorErr)
    | Except.ok none =>
      ([NotifyEff.dial, NotifyEff.send ("MAINPID=" ++ toString c.pid),
        NotifyEff.send "READY=1", NotifyEff.close],
       if env.sendReadyOk then Except.ok () else Except.error NotifyErr.writeErr)
    | Except.ok (some _) =>
      ([NotifyEff.dial, NotifyEff.send ("MAINPID=" ++ toString c.pid)], Except.ok ())

/-- C5: `Notify` probes liveness before dialing — a container already dead
yields the exited-before-notify error with no connection effect at all — and
again right after writing `MAINPID=<container pid>`; when the container died
in that window, `Notify` writes `MAINPID=<own pid>` on the same connection as
a correction, closes it, and returns the exited-before-notify error. -/
theorem notify_mainpid_death_race (env : NotifyEnv) (c : NCtx) :
    (env.died1 = true →
      Notify env c = ([], Except.error NotifyErr.exitedBeforeNotify))
    ∧ (env.died1 = false → c.notifySocket ≠ "" → env.dialOk = true →
      env.sendMainOk = true → env.died2 = true →
      Notify env c =
        ([NotifyEff.dial, NotifyEff.send ("MAINPID=" ++ toString c.pid),
          NotifyEff.send ("MAINPID=" ++ toString env.ownPid), NotifyEff.close],
         Except.error NotifyErr.exitedBeforeNotify)) := by
  refine ⟨fun h1 => ?_, fun h1 h2 h3 h4 h5 => ?_⟩
  · simp [Notify, h1]
  · simp [Notify, h1, h2, h3, h4, h5]

/-- Environment for the death-in-window witness: the container (pid known to
the context) is alive at the first probe and dead at the re-check. -/
def raceEnv : NotifyEnv where
  died1 := false
  dialOk := true
  sendMainOk := true
  died2 := true
  ownPid := 9
  monitorRes := Except.ok none
  sendReadyOk := true

/-- Context for the `Notify` witnesses: container pid 42, a configured
notification socket, delegated notify off. -/
def notifyCtx : NCtx where
  name := "web"
  pid := 42
  notifySocket := "/run/notify.sock"
  notifyFlag := false

/-- Witness for `notify_mainpid_death_race` at a concrete environment. -/
theorem notify_mainpid_death_race_witness :
    Notify raceEnv notifyCtx =
      ([NotifyEff.dial, NotifyEff.send ("MAINPID=" ++ toString notifyCtx.pid),
        NotifyEff.send ("MAINPID=" ++ toString raceEnv.ownPid), NotifyEff.close],
       Except.error NotifyErr.exitedBeforeNotify) :=
  (notify_mainpid_death_race raceEnv notifyCtx).2 rfl (by decide) rfl rfl rfl

/-- C10: `Notify` probes container liveness before looking at the socket
path — with the container already dead it fails with the
exited-before-notify error even when no notification socket is configured —
while a live container and an empty socket path yield success with no
connection opened and nothing sent. -/
theorem notify_liveness_precedes_socket_check (env : NotifyEnv) (c : NCtx) :
    (env.died1 = true → c.notifySocket = "" →
      Notify env c = ([], Except.error NotifyErr.exitedBeforeNotify))
    ∧ (env.died1 = false → c.notifySocket = "" →
      Notify env c = ([], Except.ok ())) := by
  refine ⟨fun h1 _ => ?_, fun h1 h2 => ?_⟩
  · simp [Notify, h1]
  · simp [Notify, h1, h2]

/-- Dead-container environment for the socketless witness. -/
def deadEnv : NotifyEnv where
  died1 := true
  dialOk := true
  sendMainOk := true
  died2 := true
  ownPid := 9
  monitorRes := Except.ok none
  sendReadyOk := true

/-- Live-container environment for the socketless witness. -/
def liveEnv : NotifyEnv where
  died1 := false
  dialOk := true
  sendMainOk := true
  died2 := false
  ownPid := 9
  monitorRes := Except.ok none
  sendReadyOk := true

/-- Context with no notification socket configured. -/
def socketlessCtx : NCtx where
  name := "web"
  pid := 42
  notifySocket := ""
  notifyFlag := false

/-- Witness for `notify_liveness_precedes_socket_check` at concrete
environments: dead pid errors despite the empty socket, live pid succeeds
silently. -/
theorem notify_liveness_precedes_socket_check_witness :
    Notify deadEnv socketlessCtx = ([], Except.error NotifyErr.exitedBeforeNotify)
    ∧ Notify liveEnv socketlessCtx = ([], Except.ok ()) :=
  ⟨(notify_liveness_precedes_socket_check deadEnv socketlessCtx).1 rfl rfl,
   (notify_liveness_precedes_socket_check liveEnv socketlessCtx).2 rfl rfl⟩

end SystemdDocker
